import Mathlib

/-
Verification of the rule-based-profiler parameter-builder subsystem of
great_expectations, centered on SimpleDateFormatStringParameterBuilder
(simple_date_format_string_parameter_builder.py).

Python data is embedded explicitly: dicts are association lists with
insertion-order update semantics, truthiness is made explicit, machine
floats that only ever hold exact ratios of integer counts are modelled by
exact rationals, and fallible code returns Except.  The metric-computation
collaborator (out of scope per the spec) is an oracle parameter.
-/

/-- Python runtime errors raised by the embedded code, together with the
error conditions of the parameter-resolution utility (spec taxonomy:
ParameterNotFound, TypeMismatch). -/
inductive PyError where
  | zeroDivisionError
  | typeError
  | keyError
  | parameterNotFound
  | typeMismatch
deriving DecidableEq

/-- Python dict assignment `d[k] = v`: if the key is present the value is
replaced in place (insertion order preserved), otherwise the binding is
appended at the end. -/
def pyDictUpdate {α : Type} : List (String × α) → String → α →
    List (String × α)
  | [], k, v => [(k, v)]
  | p :: rest, k, v =>
    if p.1 = k then (p.1, v) :: rest else p :: pyDictUpdate rest k v

/-- Python dict lookup: the value bound to the (unique) matching key. -/
def pyDictGet {α : Type} : List (String × α) → String → Option α
  | [], _ => Option.none
  | p :: rest, k => if p.1 = k then some p.2 else pyDictGet rest k

/-- The Python values a configurable builder field can hold after resolution:
None, a (possibly reference) string, a float, a list, a set, or a dict. -/
inductive PyObj where
  | none
  | str (s : String)
  | float (q : ℚ)
  | list (xs : List String)
  | set (xs : Finset String)
  | dict (d : List (String × String))

/-- Python truthiness of a `PyObj` (used by `if self.metric_value_kwargs:`,
line 206 of the source). -/
def pyTruthy : PyObj → Bool
  | PyObj.none => false
  | PyObj.str s => !(s == "")
  | PyObj.float q => !(q == 0)
  | PyObj.list xs => !xs.isEmpty
  | PyObj.set xs => !(xs.card == 0)
  | PyObj.dict d => !d.isEmpty

/-- Modelled from the spec: `get_parameter_value_and_validate_return_type`
(great_expectations.rule_based_profiler.util, not under src/), per spec §4.1:
a value that is a reference string (starts with "$") is looked up in the
variables/parameters namespaces (modelled as `env`), failing with
ParameterNotFound when absent; a non-reference value is returned unchanged;
when a float return type is expected, a non-float result fails with
TypeMismatch. -/
def getParameterValueAndValidateReturnType (env : String → Option PyObj)
    (expectFloat : Bool) (v : PyObj) : Except PyError PyObj :=
  let step : Except PyError PyObj :=
    match v with
    | PyObj.str s =>
      if s.startsWith "$" then
        match env s with
        | some r => Except.ok r
        | Option.none => Except.error PyError.parameterNotFound
      else Except.ok v
    | _ => Except.ok v
  match step with
  | Except.error e => Except.error e
  | Except.ok r =>
    if expectFloat then
      match r with
      | PyObj.float _ => Except.ok r
      | _ => Except.error PyError.typeMismatch
    else Except.ok r

namespace SimpleDateFormatStringParameterBuilder

/-- The entries of the class attribute `CANDIDATE_STRINGS` (source lines
26-81), in source order. -/
def candidateStringsList : List String :=
  [ "%Y-%m-%d",
    "%m-%d-%Y",
    "%y-%m-%d",
    "%Y-%m-%dT%z",
    "%Y-%m-%d %H:%M:%S",
    "%Y %b %d %H:%M:%S.%f %Z",
    "%b %d %H:%M:%S %z %Y",
    "%d/%b/%Y:%H:%M:%S %z",
    "%b %d, %Y %H:%M:%S %p",
    "%b %d %Y %H:%M:%S",
    "%b %d %H:%M:%S %Y",
    "%b %d %H:%M:%S %z",
    "%b %d %H:%M:%S",
    "%Y-%m-%d\x27T\x27%H:%M:%S%z",
    "%Y-%m-%d\x27T\x27%H:%M:%S.%f\x27%z\x27",
    "%Y-%m-%d %H:%M:%S %z",
    "%Y-%m-%d %H:%M:%S%z",
    "%Y-%m-%d %H:%M:%S,%f",
    "%Y/%m/%d*%H:%M:%S",
    "%Y %b %d %H:%M:%S.%f*%Z",
    "%Y %b %d %H:%M:%S.%f",
    "%Y-%m-%d %H:%M:%S,%f%z",
    "%Y-%m-%d %H:%M:%S.%f",
    "%Y-%m-%d %H:%M:%S.%f%z",
    "%Y-%m-%d\x27T\x27%H:%M:%S.%f",
    "%Y-%m-%d\x27T\x27%H:%M:%S",
    "%Y-%m-%d\x27T\x27%H:%M:%S\x27%z\x27",
    "%Y-%m-%d*%H:%M:%S:%f",
    "%Y-%m-%d*%H:%M:%S",
    "%y-%m-%d %H:%M:%S,%f %z",
    "%y-%m-%d %H:%M:%S,%f",
    "%y-%m-%d %H:%M:%S",
    "%y/%m/%d %H:%M:%S",
    "%y%m%d %H:%M:%S",
    "%Y%m%d %H:%M:%S.%f",
    "%m/%d/%y*%H:%M:%S",
    "%m/%d/%Y*%H:%M:%S",
    "%m/%d/%Y*%H:%M:%S*%f",
    "%m/%d/%y %H:%M:%S %z",
    "%m/%d/%Y %H:%M:%S %z",
    "%H:%M:%S",
    "%H:%M:%S.%f",
    "%H:%M:%S,%f",
    "%d/%b %H:%M:%S,%f",
    "%d/%b/%Y:%H:%M:%S",
    "%d/%b/%Y %H:%M:%S",
    "%d-%b-%Y %H:%M:%S",
    "%d-%b-%Y %H:%M:%S.%f",
    "%d %b %Y %H:%M:%S",
    "%d %b %Y %H:%M:%S*%f",
    "%m%d_%H:%M:%S",
    "%m%d_%H:%M:%S.%f",
    "%m/%d/%Y %H:%M:%S %p:%f",
    "%m/%d/%Y %H:%M:%S %p" ]

/-- `CANDIDATE_STRINGS` (source lines 26-81): the built-in default candidate
set, a Python set literal of date/time format patterns. -/
def CANDIDATE_STRINGS : Finset String := candidateStringsList.toFinset

/-- `fully_qualified_parameter_name` (source lines 122-124). -/
def fully_qualified_parameter_name (name : String) : String :=
  "$parameter." ++ name

/-- Source lines 196-199: a resolved `candidate_strings` value that is not
None and is a list is de-duplicated into a set; any other resolved value
(None included) falls back to the class default `CANDIDATE_STRINGS`. -/
def candidateStringsFromResolved : PyObj → Finset String
  | PyObj.list xs => xs.toFinset
  | _ => CANDIDATE_STRINGS

/-- `AttributedResolvedMetrics` (imported value object, spec §3): the
distinguishing metric value kwargs together with the per-batch metric value
vector (the column-0 slice of source lines 235, one entry per Batch ID). -/
structure AttributedResolvedMetrics where
  metric_attributes : List (String × String)
  metric_values : List ℤ
deriving DecidableEq

/-- Source lines 201-218: for each candidate format string in iteration
order, merge the raw `self.metric_value_kwargs` with the candidate under the
key "strftime_format".  Python raises TypeError when `{** x}` is applied to
a truthy non-mapping value. -/
def buildMatchStrftimeValueKwargsList (metric_value_kwargs : PyObj) :
    List String → Except PyError (List (List (String × String)))
  | [] => Except.ok []
  | fmt :: rest =>
    match (if pyTruthy metric_value_kwargs then
             match metric_value_kwargs with
             | PyObj.dict d => Except.ok (pyDictUpdate d "strftime_format" fmt)
             | _ => Except.error PyError.typeError
           else Except.ok [("strftime_format", fmt)]) with
    | Except.error e => Except.error e
    | Except.ok kw =>
      match buildMatchStrftimeValueKwargsList metric_value_kwargs rest with
      | Except.error e => Except.error e
      | Except.ok kws => Except.ok (kw :: kws)

/-- Source lines 230-243: accumulate `format_string_success_ratios` over the
attributed resolved metrics.  Each iteration sums the per-batch unexpected
counts, computes `(nonnull_count - unexpected) / nonnull_count` (Python
raises ZeroDivisionError when `nonnull_count` is 0, before the key lookup),
and stores the ratio in the dict under the value of the "strftime_format"
attribute (KeyError when absent). -/
def computeSuccessRatios (nonnull_count : ℤ) :
    List AttributedResolvedMetrics → List (String × ℚ) →
    Except PyError (List (String × ℚ))
  | [], d => Except.ok d
  | a :: rest, d =>
    if nonnull_count = 0 then Except.error PyError.zeroDivisionError
    else
      match pyDictGet a.metric_attributes "strftime_format" with
      | Option.none => Except.error PyError.keyError
      | some fmt =>
        computeSuccessRatios nonnull_count rest
          (pyDictUpdate d fmt
            (((nonnull_count : ℚ) - (a.metric_values.sum : ℚ)) /
              (nonnull_count : ℚ)))

/-- Source lines 245-261: the selection loop.  Starting from
`(best_fmt_string, best_ratio) = (None, 0.0)`, a candidate replaces the
running best only when `ratio > best_ratio and ratio >= threshold`. -/
def selectBestFormatString (threshold : ℚ) :
    List (String × ℚ) → (Option String × ℚ) → (Option String × ℚ)
  | [], best => best
  | p :: rest, best =>
    selectBestFormatString threshold rest
      (if best.2 < p.2 ∧ threshold ≤ p.2 then (some p.1, p.2) else best)

/-- The reduction at the heart of `_build_parameters` (source lines 176-268)
after all metric values have been fetched: sum the per-batch non-null
counts, build the success-ratio dict, and run the selection loop with the
resolved threshold.  Returns the pair
`(best_fmt_string, success_ratio detail)`. -/
def buildParametersCore (nonnullMetricValues : List ℤ)
    (attributedResults : List AttributedResolvedMetrics) (threshold : ℚ) :
    Except PyError (Option String × ℚ) :=
  match computeSuccessRatios nonnullMetricValues.sum attributedResults [] with
  | Except.error e => Except.error e
  | Except.ok ratios =>
    Except.ok (selectBestFormatString threshold ratios (Option.none, 0))

/-- The metric-computation collaborator (out of scope per spec §1), as an
oracle fixed for one builder invocation: the per-batch non-null counts and,
for each resolved value-kwargs variant, the per-batch unexpected counts. -/
structure MetricOracle where
  nonnullCounts : List ℤ
  unexpectedCounts : List (String × String) → List ℤ

/-- The configurable fields of the builder (source lines 83-120); each may
hold a literal or a reference string. -/
structure BuilderConfig where
  name : String
  metric_domain_kwargs : PyObj
  metric_value_kwargs : PyObj
  threshold : PyObj
  candidate_strings : PyObj

/-- Modelled from the spec: the single-configuration `get_metrics` call of
`ParameterBuilder` (base class, not under src/), per spec §4.2 — resolves
`metric_domain_kwargs` and `metric_value_kwargs` through the resolution
utility, then asks the collaborator for the per-batch metric values. -/
def getMetricsSingle (env : String → Option PyObj) (oracle : MetricOracle)
    (mdk mvk : PyObj) : Except PyError (List ℤ) :=
  match getParameterValueAndValidateReturnType env false mdk with
  | Except.error e => Except.error e
  | Except.ok _ =>
    match getParameterValueAndValidateReturnType env false mvk with
    | Except.error e => Except.error e
    | Except.ok _ => Except.ok oracle.nonnullCounts

/-- Modelled from the spec: the fanned-out `get_metrics` call of
`ParameterBuilder` (base class, not under src/), per spec §4.2 and §6 —
resolves `metric_domain_kwargs`, then returns one `AttributedResolvedMetrics`
per value-kwargs variant, attributed by those kwargs. -/
def getMetricsFanOut (env : String → Option PyObj) (oracle : MetricOracle)
    (mdk : PyObj) (kwargsList : List (List (String × String))) :
    Except PyError (List AttributedResolvedMetrics) :=
  match getParameterValueAndValidateReturnType env false mdk with
  | Except.error e => Except.error e
  | Except.ok _ =>
    Except.ok (kwargsList.map
      (fun kw => ⟨kw, oracle.unexpectedCounts kw⟩))

/-- Source lines 248-255: resolve `threshold` with
`expected_return_type=float`. -/
def resolveThreshold (env : String → Option PyObj) (v : PyObj) :
    Except PyError ℚ :=
  match getParameterValueAndValidateReturnType env true v with
  | Except.error e => Except.error e
  | Except.ok (PyObj.float q) => Except.ok q
  | Except.ok _ => Except.error PyError.typeMismatch

/-- The full `_build_parameters` (source lines 152-268), in source order:
fetch and sum the non-null counts; resolve `candidate_strings` and convert;
build the per-candidate value kwargs from the raw `metric_value_kwargs`;
issue the fanned-out metric request; build the success-ratio dict; resolve
`threshold`; run the selection loop.  `enumerate` supplies the (otherwise
unspecified) iteration order Python uses over the candidate set. -/
def buildParametersM (cfg : BuilderConfig) (env : String → Option PyObj)
    (oracle : MetricOracle) (enumerate : Finset String → List String) :
    Except PyError (Option String × ℚ) :=
  match getMetricsSingle env oracle cfg.metric_domain_kwargs
      cfg.metric_value_kwargs with
  | Except.error e => Except.error e
  | Except.ok nonnullValues =>
    let nonnull_count : ℤ := nonnullValues.sum
    match getParameterValueAndValidateReturnType env false
        cfg.candidate_strings with
    | Except.error e => Except.error e
    | Except.ok resolvedCandidates =>
      let candidate_strings : Finset String :=
        candidateStringsFromResolved resolvedCandidates
      match buildMatchStrftimeValueKwargsList cfg.metric_value_kwargs
          (enumerate candidate_strings) with
      | Except.error e => Except.error e
      | Except.ok kwargsList =>
        match getMetricsFanOut env oracle cfg.metric_domain_kwargs
            kwargsList with
        | Except.error e => Except.error e
        | Except.ok attributed =>
          match computeSuccessRatios nonnull_count attributed [] with
          | Except.error e => Except.error e
          | Except.ok ratios =>
            match resolveThreshold env cfg.threshold with
            | Except.error e => Except.error e
            | Except.ok threshold =>
              Except.ok (selectBestFormatString threshold ratios
                (Option.none, 0))

/-- The record a builder writes for its parameter: the computed value and
the computation details (spec §3, §4.2; for this builder the details are the
winning success ratio, with `num_batches` merged in by the base class). -/
structure ParameterRecord where
  value : Option String
  success_ratio : ℚ
  num_batches : ℕ
deriving DecidableEq

/-- `ParameterContainer` (spec §3): the per-Domain store, keyed by
fully-qualified parameter name. -/
structure ParameterContainer where
  parameter_nodes : List (String × ParameterRecord)
deriving DecidableEq

/-- Modelled from the spec: the public `build_parameters` of
`ParameterBuilder` (base class, not under src/), per spec §4.2 — runs
`_build_parameters`, wraps the returned pair with `num_batches`, and writes
the whole record into the container under the builder's fully-qualified
name. -/
def build_parameters (cfg : BuilderConfig) (env : String → Option PyObj)
    (oracle : MetricOracle) (enumerate : Finset String → List String)
    (container : ParameterContainer) : Except PyError ParameterContainer :=
  match buildParametersM cfg env oracle enumerate with
  | Except.error e => Except.error e
  | Except.ok (v, r) =>
    Except.ok ⟨pyDictUpdate container.parameter_nodes
      (fully_qualified_parameter_name cfg.name)
      ⟨v, r, oracle.nonnullCounts.length⟩⟩

end SimpleDateFormatStringParameterBuilder

/-- A Python iterable argument of the value-set reduction: a list or a set. -/
inductive PyIterable (α : Type) where
  | ofList (xs : List α)
  | ofSet (s : Finset α)
deriving DecidableEq

/-- The set of elements of a `PyIterable`. -/
def PyIterable.asFinset {α : Type} [DecidableEq α] :
    PyIterable α → Finset α
  | PyIterable.ofList xs => xs.toFinset
  | PyIterable.ofSet s => s

/-- Modelled from the spec: `_get_unique_values_from_iterable_of_iterables`
(value_set_multi_batch_parameter_builder.py, not under src/ — only its test
is), per spec §4.4: flatten a sequence of per-batch iterables (lists or
sets) into a single set via iterative union. -/
def getUniqueValuesFromIterableOfIterables {α : Type} [DecidableEq α]
    (iterableOfIterables : List (PyIterable α)) : Finset α :=
  iterableOfIterables.foldl (fun acc it => acc ∪ it.asFinset) ∅

namespace SampleInputs

open SimpleDateFormatStringParameterBuilder

/-- A concrete variables/parameters namespace used for concrete runs: it
binds one reference for each configurable field. -/
def sampleEnv : String → Option PyObj := fun s =>
  if s = "$variables.mvk" then
    some (PyObj.dict [("include_config", "True")])
  else if s = "$variables.threshold" then some (PyObj.float 1)
  else if s = "$variables.candidates" then
    some (PyObj.list ["%Y-%m-%d"])
  else if s = "$domain.domain_kwargs" then
    some (PyObj.dict [("column", "ts")])
  else Option.none

/-- A concrete metric oracle: one batch with 4 non-null values, every
candidate matching all of them. -/
def sampleOracle : MetricOracle := ⟨[4], fun _ => [0]⟩

/-- A concrete iteration order for candidate sets, adequate for the
singleton candidate set used in concrete runs. -/
def singletonEnumerate : Finset String → List String := fun _ => ["%Y-%m-%d"]

end SampleInputs

namespace SimpleDateFormatStringParameterBuilder

theorem pyDictGet_update_self {α : Type} (d : List (String × α)) (k : String)
    (v : α) : pyDictGet (pyDictUpdate d k v) k = some v := by
  induction d with
  | nil => simp [pyDictUpdate, pyDictGet]
  | cons p rest ih =>
    by_cases hpk : p.1 = k
    · simp [pyDictUpdate, pyDictGet, hpk]
    · simp [pyDictUpdate, pyDictGet, hpk, ih]

theorem pyDictGet_update_other {α : Type} (d : List (String × α))
    (k k' : String) (v : α) (h : k' ≠ k) :
    pyDictGet (pyDictUpdate d k v) k' = pyDictGet d k' := by
  have hkk' : ¬ k = k' := fun he => h he.symm
  induction d with
  | nil => simp [pyDictUpdate, pyDictGet, hkk']
  | cons p rest ih =>
    by_cases hpk : p.1 = k
    · have hpk' : ¬ p.1 = k' := by rw [hpk]; exact hkk'
      simp [pyDictUpdate, pyDictGet, hpk, hpk', hkk']
    · by_cases hpk' : p.1 = k'
      · simp [pyDictUpdate, pyDictGet, hpk, hpk', h, hkk']
      · simp [pyDictUpdate, pyDictGet, hpk, hpk', hkk', ih]

theorem pyDictUpdate_not_mem {α : Type} {d : List (String × α)} {k : String}
    (v : α) (h : k ∉ d.map Prod.fst) : pyDictUpdate d k v = d ++ [(k, v)] := by
  induction d with
  | nil => rfl
  | cons p rest ih =>
    rw [List.map_cons, List.mem_cons, not_or] at h
    have hpk : ¬ p.1 = k := fun he => h.1 he.symm
    simp [pyDictUpdate, hpk, ih h.2]

theorem selectBest_no_update (t : ℚ) (l : List (String × ℚ))
    (b : Option String × ℚ) (h : ∀ p ∈ l, t ≤ p.2 → p.2 ≤ b.2) :
    selectBestFormatString t l b = b := by
  induction l with
  | nil => rfl
  | cons p rest ih =>
    have hcond : ¬ (b.2 < p.2 ∧ t ≤ p.2) := by
      rintro ⟨h1, h2⟩
      exact absurd h1 (not_lt.2 (h p (List.mem_cons_self p rest) h2))
    simp only [selectBestFormatString, if_neg hcond]
    exact ih (fun q hq => h q (List.mem_cons_of_mem p hq))

/-- C2: when no computed candidate success ratio reaches the resolved
threshold, `_build_parameters` returns the normal (non-error) result
`(None, success_ratio 0.0)`. -/
theorem buildParameters_no_match (nv : List ℤ)
    (ams : List AttributedResolvedMetrics) (t : ℚ) (rl : List (String × ℚ))
    (hok : computeSuccessRatios nv.sum ams [] = Except.ok rl)
    (hbelow : ∀ p ∈ rl, p.2 < t) :
    buildParametersCore nv ams t = Except.ok (Option.none, 0) := by
  simp only [buildParametersCore, hok]
  rw [selectBest_no_update t rl (Option.none, 0)
    (fun p hp htp => absurd htp (not_le.2 (hbelow p hp)))]

theorem buildParameters_no_match_witness :
    computeSuccessRatios ((([2] : List ℤ)).sum)
        [⟨[("strftime_format", "%H:%M:%S")], [1]⟩] [] =
      Except.ok [("%H:%M:%S", (1 : ℚ)/2)] ∧
    (∀ p ∈ [("%H:%M:%S", (1 : ℚ)/2)], p.2 < 1) ∧
    buildParametersCore [2] [⟨[("strftime_format", "%H:%M:%S")], [1]⟩] 1 =
      Except.ok (Option.none, 0) :=
  ⟨by with_unfolding_all rfl, by norm_num,
   buildParameters_no_match [2] [⟨[("strftime_format", "%H:%M:%S")], [1]⟩] 1
     [("%H:%M:%S", (1 : ℚ)/2)] (by with_unfolding_all rfl) (by norm_num)⟩

/-- C3: with a zero summed non-null count and a non-empty candidate result
list, the per-candidate ratio computation divides by zero, so
`_build_parameters` fails with ZeroDivisionError instead of returning. -/
theorem buildParameters_zero_nonnull_division_error (nv : List ℤ)
    (ams : List AttributedResolvedMetrics) (t : ℚ)
    (h0 : nv.sum = 0) (hne : ams ≠ []) :
    buildParametersCore nv ams t = Except.error PyError.zeroDivisionError := by
  cases ams with
  | nil => exact absurd rfl hne
  | cons a rest => simp [buildParametersCore, computeSuccessRatios, h0]

theorem buildParameters_zero_nonnull_division_error_witness :
    (([(0 : ℤ)] : List ℤ).sum = 0) ∧
    ([⟨[("strftime_format", "%Y-%m-%d")], [0]⟩] :
      List AttributedResolvedMetrics) ≠ [] ∧
    buildParametersCore [0] [⟨[("strftime_format", "%Y-%m-%d")], [0]⟩] 1 =
      Except.error PyError.zeroDivisionError :=
  ⟨rfl, by simp,
   buildParameters_zero_nonnull_division_error [0]
     [⟨[("strftime_format", "%Y-%m-%d")], [0]⟩] 1 rfl (by simp)⟩

/-- C10: when every computed candidate success ratio is exactly 0, the
result is `(None, success_ratio 0.0)` even with threshold 0.0 (every
candidate then satisfies ratio >= threshold): the running best starts at
0.0 and only a strictly greater ratio replaces it. -/
theorem buildParameters_all_zero_ratios (nv : List ℤ)
    (ams : List AttributedResolvedMetrics) (rl : List (String × ℚ))
    (hok : computeSuccessRatios nv.sum ams [] = Except.ok rl)
    (hzero : ∀ p ∈ rl, p.2 = 0) :
    buildParametersCore nv ams 0 = Except.ok (Option.none, 0) := by
  simp only [buildParametersCore, hok]
  rw [selectBest_no_update 0 rl (Option.none, 0)
    (fun p hp _ => le_of_eq (hzero p hp))]

theorem buildParameters_all_zero_ratios_witness :
    computeSuccessRatios ((([3] : List ℤ)).sum)
        [⟨[("strftime_format", "%Y-%m-%d")], [3]⟩] [] =
      Except.ok [("%Y-%m-%d", (0 : ℚ))] ∧
    (∀ p ∈ [("%Y-%m-%d", (0 : ℚ))], p.2 = 0) ∧
    buildParametersCore [3] [⟨[("strftime_format", "%Y-%m-%d")], [3]⟩] 0 =
      Except.ok (Option.none, 0) :=
  ⟨by with_unfolding_all rfl, by norm_num,
   buildParameters_all_zero_ratios [3] [⟨[("strftime_format", "%Y-%m-%d")], [3]⟩]
     [("%Y-%m-%d", (0 : ℚ))] (by with_unfolding_all rfl) (by norm_num)⟩

end SimpleDateFormatStringParameterBuilder

namespace SimpleDateFormatStringParameterBuilder

theorem selectBest_first_max (t M : ℚ) (htM : t ≤ M) :
    ∀ (l : List (String × ℚ)) (b : Option String × ℚ),
      b.2 < M →
      (∀ p ∈ l, t ≤ p.2 → p.2 ≤ M) →
      (∃ p ∈ l, p.2 = M) →
      ∃ p, l.find? (fun q => decide (q.2 = M)) = some p ∧
        selectBestFormatString t l b = (some p.1, M) := by
  intro l
  induction l with
  | nil =>
    rintro b _ _ ⟨p, hp, _⟩
    exact absurd hp (List.not_mem_nil p)
  | cons q rest ih =>
    intro b hb hub hatt
    by_cases hqM : q.2 = M
    · refine ⟨q, ?_, ?_⟩
      · simp [List.find?, hqM]
      · have hcond : b.2 < q.2 ∧ t ≤ q.2 := ⟨hqM ▸ hb, hqM ▸ htM⟩
        simp only [selectBestFormatString, if_pos hcond]
        rw [selectBest_no_update t rest (some q.1, q.2)
          (fun p hp htp => hqM ▸ (hub p (List.mem_cons_of_mem q hp) htp))]
        rw [hqM]
    · have hfind : (q :: rest).find? (fun p => decide (p.2 = M)) =
          rest.find? (fun p => decide (p.2 = M)) := by
        simp [List.find?, hqM]
      have hatt2 : ∃ p ∈ rest, p.2 = M := by
        obtain ⟨p, hp, hpM⟩ := hatt
        rcases List.mem_cons.1 hp with he | hm
        · exact absurd (he ▸ hpM) hqM
        · exact ⟨p, hm, hpM⟩
      by_cases hc : b.2 < q.2 ∧ t ≤ q.2
      · have hb2 : ((some q.1, q.2) : Option String × ℚ).2 < M :=
          lt_of_le_of_ne (hub q (List.mem_cons_self q rest) hc.2) hqM
        obtain ⟨p, hfp, hres⟩ := ih (some q.1, q.2) hb2
          (fun p hp => hub p (List.mem_cons_of_mem q hp)) hatt2
        refine ⟨p, ?_, ?_⟩
        · rw [hfind]; exact hfp
        · simp only [selectBestFormatString, if_pos hc]
          exact hres
      · obtain ⟨p, hfp, hres⟩ := ih b hb
          (fun p hp => hub p (List.mem_cons_of_mem q hp)) hatt2
        refine ⟨p, ?_, ?_⟩
        · rw [hfind]; exact hfp
        · simp only [selectBestFormatString, if_neg hc]
          exact hres

/-- C1 counterexample: with one batch of 1 non-null value, a single
candidate matching nothing (ratio 0.0) and resolved threshold 0.0, the
candidate satisfies ratio >= threshold and is trivially the strictly-highest
qualifying candidate, yet `_build_parameters` returns None: the claim fails
because the running best starts at 0.0 and only a strictly greater ratio is
ever selected. -/
theorem buildParameters_qualifying_zero_ratio_not_selected :
    computeSuccessRatios ((([1] : List ℤ)).sum)
        [⟨[("strftime_format", "%Y-%m-%d")], [1]⟩] [] =
      Except.ok [("%Y-%m-%d", (0 : ℚ))] ∧
    ((0 : ℚ) ≤ (0 : ℚ)) ∧
    buildParametersCore [1] [⟨[("strftime_format", "%Y-%m-%d")], [1]⟩] 0 =
      Except.ok (Option.none, 0) :=
  ⟨by with_unfolding_all rfl, le_refl 0, by with_unfolding_all rfl⟩

/-- C1 (amended): provided the maximum qualifying success ratio M is
positive, `_build_parameters` returns the first-seen candidate attaining M
among those with ratio >= threshold (the strict-greater update makes
first-seen iteration order win exact ties), with success_ratio M; in
particular with threshold 1.0 a candidate of ratio exactly 1.0 is selected
while one of ratio 0.9999 is rejected (see the witness). -/
theorem buildParameters_first_highest_qualifying (nv : List ℤ)
    (ams : List AttributedResolvedMetrics) (t M : ℚ) (rl : List (String × ℚ))
    (hok : computeSuccessRatios nv.sum ams [] = Except.ok rl)
    (hM : 0 < M) (htM : t ≤ M)
    (hub : ∀ p ∈ rl, t ≤ p.2 → p.2 ≤ M)
    (hatt : ∃ p ∈ rl, p.2 = M) :
    ∃ p, rl.find? (fun q => decide (q.2 = M)) = some p ∧
      buildParametersCore nv ams t = Except.ok (some p.1, M) := by
  obtain ⟨p, h1, h2⟩ :=
    selectBest_first_max t M htM rl (Option.none, 0) hM hub hatt
  refine ⟨p, h1, ?_⟩
  simp only [buildParametersCore, hok, h2]

theorem buildParameters_first_highest_qualifying_witness :
    computeSuccessRatios ((([10000] : List ℤ)).sum)
        [⟨[("strftime_format", "%m-%d-%Y")], [1]⟩,
         ⟨[("strftime_format", "%Y-%m-%d")], [0]⟩] [] =
      Except.ok [("%m-%d-%Y", (9999 : ℚ)/10000), ("%Y-%m-%d", 1)] ∧
    (0 : ℚ) < 1 ∧ (1 : ℚ) ≤ 1 ∧
    (∀ p ∈ [("%m-%d-%Y", (9999 : ℚ)/10000), ("%Y-%m-%d", (1 : ℚ))],
      (1 : ℚ) ≤ p.2 → p.2 ≤ 1) ∧
    (∃ p ∈ [("%m-%d-%Y", (9999 : ℚ)/10000), ("%Y-%m-%d", (1 : ℚ))],
      p.2 = 1) ∧
    (∃ p, ([("%m-%d-%Y", (9999 : ℚ)/10000),
            ("%Y-%m-%d", (1 : ℚ))].find? (fun q => decide (q.2 = 1))) =
        some p ∧
      buildParametersCore [10000]
          [⟨[("strftime_format", "%m-%d-%Y")], [1]⟩,
           ⟨[("strftime_format", "%Y-%m-%d")], [0]⟩] 1 =
        Except.ok (some p.1, 1)) :=
  ⟨by with_unfolding_all rfl, by norm_num, le_refl 1,
   by
     intro p hp
     rcases List.mem_cons.1 hp with he | hm
     · rw [he]; norm_num
     · rw [List.mem_singleton.1 hm]; norm_num,
   ⟨("%Y-%m-%d", 1), by simp, rfl⟩,
   buildParameters_first_highest_qualifying [10000]
     [⟨[("strftime_format", "%m-%d-%Y")], [1]⟩,
      ⟨[("strftime_format", "%Y-%m-%d")], [0]⟩] 1 1
     [("%m-%d-%Y", (9999 : ℚ)/10000), ("%Y-%m-%d", (1 : ℚ))]
     (by with_unfolding_all rfl) (by norm_num) (le_refl 1)
     (by
       intro p hp
       rcases List.mem_cons.1 hp with he | hm
       · rw [he]; norm_num
       · rw [List.mem_singleton.1 hm]; norm_num)
     ⟨("%Y-%m-%d", 1), by simp, rfl⟩⟩

end SimpleDateFormatStringParameterBuilder

namespace SimpleDateFormatStringParameterBuilder

/-- C4: after resolving the `candidate_strings` field, a resolved list is
converted to a set (de-duplicating, so repeating entries changes nothing),
while an unset/None resolved value falls back to the built-in default
catalog `CANDIDATE_STRINGS`, which holds 54 distinct date/time format
patterns. -/
theorem candidate_strings_resolution :
    (∀ xs : List String,
      candidateStringsFromResolved (PyObj.list xs) = xs.toFinset) ∧
    (∀ xs : List String,
      candidateStringsFromResolved (PyObj.list (xs ++ xs)) =
        candidateStringsFromResolved (PyObj.list xs)) ∧
    candidateStringsFromResolved PyObj.none = CANDIDATE_STRINGS ∧
    CANDIDATE_STRINGS.card = 54 := by
  refine ⟨fun xs => rfl, fun xs => ?_, rfl, by decide⟩
  simp [candidateStringsFromResolved]

theorem computeSuccessRatios_singleton_attrs (n : ℤ) (hn : n ≠ 0) :
    ∀ (cands : List (String × List ℤ)) (d : List (String × ℚ)),
      (cands.map Prod.fst).Nodup →
      (∀ c ∈ cands, c.1 ∉ d.map Prod.fst) →
      computeSuccessRatios n
          (cands.map fun c => ⟨[("strftime_format", c.1)], c.2⟩) d =
        Except.ok (d ++ cands.map fun c =>
          (c.1, ((n : ℚ) - (c.2.sum : ℚ)) / (n : ℚ))) := by
  intro cands
  induction cands with
  | nil => intro d _ _; simp [computeSuccessRatios]
  | cons c rest ih =>
    intro d hnd hdisj
    rw [List.map_cons]
    have hupd : pyDictUpdate d c.1
        (((n : ℚ) - ((c.2.sum : ℤ) : ℚ)) / (n : ℚ)) =
        d ++ [(c.1, ((n : ℚ) - ((c.2.sum : ℤ) : ℚ)) / (n : ℚ))] :=
      pyDictUpdate_not_mem _ (hdisj c (List.mem_cons_self c rest))
    have hstep : computeSuccessRatios n
        ((⟨[("strftime_format", c.1)], c.2⟩ : AttributedResolvedMetrics) ::
          rest.map fun b => ⟨[("strftime_format", b.1)], b.2⟩) d =
        computeSuccessRatios n
          (rest.map fun b => ⟨[("strftime_format", b.1)], b.2⟩)
          (pyDictUpdate d c.1 (((n : ℚ) - ((c.2.sum : ℤ) : ℚ)) / (n : ℚ))) := by
      simp [computeSuccessRatios, if_neg hn, pyDictGet]
    rw [hstep, hupd]
    rw [List.map_cons, List.nodup_cons] at hnd
    have hdisj2 : ∀ b ∈ rest, b.1 ∉
        (d ++ [(c.1, ((n : ℚ) - ((c.2.sum : ℤ) : ℚ)) / (n : ℚ))]).map
          Prod.fst := by
      intro b hb
      rw [List.map_append, List.mem_append, not_or]
      refine ⟨hdisj b (List.mem_cons_of_mem c hb), ?_⟩
      simp only [List.map_cons, List.map_nil, List.mem_singleton]
      intro he
      exact hnd.1 (he ▸ List.mem_map_of_mem Prod.fst hb)
    rw [ih _ hnd.2 hdisj2]
    simp

/-- C6: with a positive summed non-null count and pairwise-distinct
candidate formats, the success ratio recorded for every candidate equals
`(total_nonnull - unexpected_count_for_candidate) / total_nonnull`, where
the unexpected count is the sum of the candidate's per-batch metric values
and the total is the sum of the per-batch non-null counts. -/
theorem success_ratio_formula (nv : List ℤ) (cands : List (String × List ℤ))
    (hn : 0 < nv.sum) (hnd : (cands.map Prod.fst).Nodup) :
    computeSuccessRatios nv.sum
        (cands.map fun c => ⟨[("strftime_format", c.1)], c.2⟩) [] =
      Except.ok (cands.map fun c =>
        (c.1, ((nv.sum : ℚ) - (c.2.sum : ℚ)) / (nv.sum : ℚ))) := by
  have h := computeSuccessRatios_singleton_attrs nv.sum hn.ne' cands []
    hnd (fun c _ => by simp)
  simpa using h

theorem success_ratio_formula_witness :
    (0 : ℤ) < ([2, 3] : List ℤ).sum ∧
    ((([("%Y-%m-%d", [1, 1]), ("%H:%M:%S", [0, 0])] :
        List (String × List ℤ)).map Prod.fst).Nodup) ∧
    computeSuccessRatios (([2, 3] : List ℤ).sum)
        [⟨[("strftime_format", "%Y-%m-%d")], [1, 1]⟩,
         ⟨[("strftime_format", "%H:%M:%S")], [0, 0]⟩] [] =
      Except.ok [("%Y-%m-%d", (3 : ℚ)/5), ("%H:%M:%S", 1)] :=
  ⟨by decide, by decide,
   (success_ratio_formula [2, 3]
       [("%Y-%m-%d", [1, 1]), ("%H:%M:%S", [0, 0])]
       (by decide) (by decide)).trans (by with_unfolding_all rfl)⟩

end SimpleDateFormatStringParameterBuilder

namespace SimpleDateFormatStringParameterBuilder

/-- C5 counterexample: a `metric_value_kwargs` field holding a reference
string bound in the environment to a dict makes `_build_parameters` raise
TypeError — the per-candidate kwargs construction (source lines 201-218)
merges the raw field value instead of resolving it first — whereas the same
call with the already-resolved dict in that field succeeds. -/
theorem metric_value_kwargs_reference_raw_use :
    buildParametersM ⟨"my_fmt", PyObj.dict [("column", "ts")],
        PyObj.str "$variables.mvk", PyObj.float 1,
        PyObj.list ["%Y-%m-%d"]⟩ SampleInputs.sampleEnv
        SampleInputs.sampleOracle SampleInputs.singletonEnumerate =
      Except.error PyError.typeError ∧
    SampleInputs.sampleEnv "$variables.mvk" =
      some (PyObj.dict [("include_config", "True")]) ∧
    buildParametersM ⟨"my_fmt", PyObj.dict [("column", "ts")],
        PyObj.dict [("include_config", "True")], PyObj.float 1,
        PyObj.list ["%Y-%m-%d"]⟩ SampleInputs.sampleEnv
        SampleInputs.sampleOracle SampleInputs.singletonEnumerate =
      Except.ok (some "%Y-%m-%d", 1) :=
  ⟨by with_unfolding_all rfl, by with_unfolding_all rfl,
   by with_unfolding_all rfl⟩

/-- C5 (amended): the fields `metric_domain_kwargs`, `threshold` and
`candidate_strings` are passed through the parameter-resolution utility
before use on every call, so reference strings in them behave exactly as
their resolved literals (`metric_domain_kwargs` inside the spec-modelled
`get_metrics`, the other two explicitly in `_build_parameters`);
`metric_value_kwargs`, by contrast, is merged raw into the per-candidate
kwargs (see the counterexample). -/
theorem resolved_fields_substitution
    (name0 : String) (mvk : PyObj) (env : String → Option PyObj)
    (oracle : MetricOracle) (enumerate : Finset String → List String)
    (rt rc rd : String) (t : ℚ) (cs : List String)
    (dk : List (String × String))
    (hrt : rt.startsWith "$" = true) (hrtEnv : env rt = some (PyObj.float t))
    (hrc : rc.startsWith "$" = true) (hrcEnv : env rc = some (PyObj.list cs))
    (hrd : rd.startsWith "$" = true) (hrdEnv : env rd = some (PyObj.dict dk)) :
    buildParametersM ⟨name0, PyObj.str rd, mvk, PyObj.str rt, PyObj.str rc⟩
        env oracle enumerate =
      buildParametersM ⟨name0, PyObj.dict dk, mvk, PyObj.float t,
        PyObj.list cs⟩ env oracle enumerate := by
  simp [buildParametersM, getMetricsSingle, getMetricsFanOut, resolveThreshold,
    getParameterValueAndValidateReturnType, hrt, hrtEnv, hrc, hrcEnv, hrd,
    hrdEnv]

theorem resolved_fields_substitution_witness :
    ("$variables.threshold".startsWith "$" = true) ∧
    SampleInputs.sampleEnv "$variables.threshold" =
      some (PyObj.float 1) ∧
    ("$variables.candidates".startsWith "$" = true) ∧
    SampleInputs.sampleEnv "$variables.candidates" =
      some (PyObj.list ["%Y-%m-%d"]) ∧
    ("$domain.domain_kwargs".startsWith "$" = true) ∧
    SampleInputs.sampleEnv "$domain.domain_kwargs" =
      some (PyObj.dict [("column", "ts")]) ∧
    buildParametersM ⟨"my_fmt", PyObj.str "$domain.domain_kwargs",
        PyObj.none, PyObj.str "$variables.threshold",
        PyObj.str "$variables.candidates"⟩ SampleInputs.sampleEnv
        SampleInputs.sampleOracle SampleInputs.singletonEnumerate =
      buildParametersM ⟨"my_fmt", PyObj.dict [("column", "ts")],
        PyObj.none, PyObj.float 1, PyObj.list ["%Y-%m-%d"]⟩
        SampleInputs.sampleEnv SampleInputs.sampleOracle
        SampleInputs.singletonEnumerate :=
  ⟨by with_unfolding_all rfl, by with_unfolding_all rfl, by with_unfolding_all rfl,
   by with_unfolding_all rfl, by with_unfolding_all rfl, by with_unfolding_all rfl,
   resolved_fields_substitution "my_fmt" PyObj.none SampleInputs.sampleEnv
     SampleInputs.sampleOracle SampleInputs.singletonEnumerate
     "$variables.threshold" "$variables.candidates" "$domain.domain_kwargs"
     1 ["%Y-%m-%d"] [("column", "ts")]
     (by with_unfolding_all rfl) (by with_unfolding_all rfl) (by with_unfolding_all rfl)
     (by with_unfolding_all rfl) (by with_unfolding_all rfl) (by with_unfolding_all rfl)⟩

end SimpleDateFormatStringParameterBuilder

theorem mem_foldl_union {α : Type} [DecidableEq α] :
    ∀ (xss : List (PyIterable α)) (s : Finset α) (a : α),
      a ∈ xss.foldl (fun acc it => acc ∪ it.asFinset) s ↔
        a ∈ s ∨ ∃ it ∈ xss, a ∈ it.asFinset := by
  intro xss
  induction xss with
  | nil => intro s a; simp
  | cons it rest ih =>
    intro s a
    rw [List.foldl_cons, ih]
    simp [Finset.mem_union, or_assoc]

/-- C7: the value-set reduction is exactly set union of all inner iterables:
membership is existence in some inner iterable, the result is invariant
under permutation of the inner iterables, and on the concrete inputs of the
test suite it gives the expected sets (duplicates collapse). -/
theorem get_unique_values_union_spec :
    (∀ (α : Type) [_inst : DecidableEq α] (xss : List (PyIterable α)) (a : α),
      a ∈ getUniqueValuesFromIterableOfIterables xss ↔
        ∃ it ∈ xss, a ∈ it.asFinset) ∧
    (∀ (α : Type) [_inst : DecidableEq α] (xss yss : List (PyIterable α)),
      xss.Perm yss →
        getUniqueValuesFromIterableOfIterables xss =
          getUniqueValuesFromIterableOfIterables yss) ∧
    getUniqueValuesFromIterableOfIterables
        [PyIterable.ofList [1, 2, 3], PyIterable.ofList [1, 4, 5]] =
      ({1, 2, 3, 4, 5} : Finset ℤ) ∧
    getUniqueValuesFromIterableOfIterables
        [PyIterable.ofSet {1, 2, 3}, PyIterable.ofSet {1, 4, 5}] =
      ({1, 2, 3, 4, 5} : Finset ℤ) ∧
    getUniqueValuesFromIterableOfIterables
        [PyIterable.ofList [1], PyIterable.ofList [1]] =
      ({1} : Finset ℤ) := by
  refine ⟨?_, ?_, by decide, by decide, by decide⟩
  · intro α _inst xss a
    rw [getUniqueValuesFromIterableOfIterables, mem_foldl_union]
    simp
  · intro α _inst xss yss h
    apply Finset.ext
    intro a
    rw [getUniqueValuesFromIterableOfIterables, mem_foldl_union,
        getUniqueValuesFromIterableOfIterables, mem_foldl_union]
    simp only [Finset.not_mem_empty, false_or]
    constructor
    · rintro ⟨it, hit, ha⟩
      exact ⟨it, h.mem_iff.1 hit, ha⟩
    · rintro ⟨it, hit, ha⟩
      exact ⟨it, h.mem_iff.2 hit, ha⟩

theorem get_unique_values_union_spec_witness :
    ([PyIterable.ofList [1, 2], PyIterable.ofList [3]] :
        List (PyIterable ℤ)).Perm
      [PyIterable.ofList [3], PyIterable.ofList [1, 2]] ∧
    getUniqueValuesFromIterableOfIterables
        ([PyIterable.ofList [1, 2], PyIterable.ofList [3]] :
          List (PyIterable ℤ)) =
      getUniqueValuesFromIterableOfIterables
        [PyIterable.ofList [3], PyIterable.ofList [1, 2]] :=
  ⟨by decide,
   get_unique_values_union_spec.2.1 ℤ
     [PyIterable.ofList [1, 2], PyIterable.ofList [3]]
     [PyIterable.ofList [3], PyIterable.ofList [1, 2]] (by decide)⟩

namespace SimpleDateFormatStringParameterBuilder

/-- C8: running the builder twice with identical inputs (configuration,
variables/parameters namespace, metric results, candidate iteration order),
each time against an empty ParameterContainer, produces identical results:
the reduction is a function of its inputs with no state carried between
runs. -/
theorem build_parameters_deterministic (cfg : BuilderConfig)
    (env : String → Option PyObj) (oracle : MetricOracle)
    (enumerate : Finset String → List String) (c1 c2 : ParameterContainer)
    (h1 : c1.parameter_nodes = []) (h2 : c2.parameter_nodes = []) :
    build_parameters cfg env oracle enumerate c1 =
      build_parameters cfg env oracle enumerate c2 := by
  have he : c1 = c2 := by
    cases c1
    cases c2
    simp_all
  rw [he]

theorem build_parameters_deterministic_witness :
    (ParameterContainer.mk [] : ParameterContainer).parameter_nodes = [] ∧
    build_parameters ⟨"my_fmt", PyObj.dict [("column", "ts")], PyObj.none,
        PyObj.float 1, PyObj.list ["%Y-%m-%d"]⟩ SampleInputs.sampleEnv
        SampleInputs.sampleOracle SampleInputs.singletonEnumerate ⟨[]⟩ =
      build_parameters ⟨"my_fmt", PyObj.dict [("column", "ts")], PyObj.none,
        PyObj.float 1, PyObj.list ["%Y-%m-%d"]⟩ SampleInputs.sampleEnv
        SampleInputs.sampleOracle SampleInputs.singletonEnumerate ⟨[]⟩ :=
  ⟨rfl,
   build_parameters_deterministic
     ⟨"my_fmt", PyObj.dict [("column", "ts")], PyObj.none, PyObj.float 1,
      PyObj.list ["%Y-%m-%d"]⟩ SampleInputs.sampleEnv
     SampleInputs.sampleOracle SampleInputs.singletonEnumerate
     ⟨[]⟩ ⟨[]⟩ rfl rfl⟩

/-- C9: a successful `build_parameters` writes the whole record
(value, success ratio detail, num_batches) into the container under the
fully-qualified name "$parameter.<name>" as one replacement, and every
other key of the container is left unchanged; the variables/parameters
namespace is a read-only input of the run, matching the source, which never
writes it. -/
theorem build_parameters_frame_effect (cfg : BuilderConfig)
    (env : String → Option PyObj) (oracle : MetricOracle)
    (enumerate : Finset String → List String)
    (container : ParameterContainer) (v : Option String) (r : ℚ)
    (h : buildParametersM cfg env oracle enumerate = Except.ok (v, r)) :
    ∃ c2, build_parameters cfg env oracle enumerate container =
        Except.ok c2 ∧
      pyDictGet c2.parameter_nodes (fully_qualified_parameter_name cfg.name) =
        some ⟨v, r, oracle.nonnullCounts.length⟩ ∧
      ∀ k, k ≠ fully_qualified_parameter_name cfg.name →
        pyDictGet c2.parameter_nodes k =
          pyDictGet container.parameter_nodes k := by
  refine ⟨⟨pyDictUpdate container.parameter_nodes
    (fully_qualified_parameter_name cfg.name)
    ⟨v, r, oracle.nonnullCounts.length⟩⟩, ?_, ?_, ?_⟩
  · simp only [build_parameters, h]
  · exact pyDictGet_update_self _ _ _
  · intro k hk
    exact pyDictGet_update_other _ _ _ _ hk

theorem build_parameters_frame_effect_witness :
    buildParametersM ⟨"my_fmt", PyObj.dict [("column", "ts")], PyObj.none,
        PyObj.float 1, PyObj.list ["%Y-%m-%d"]⟩ SampleInputs.sampleEnv
        SampleInputs.sampleOracle SampleInputs.singletonEnumerate =
      Except.ok (some "%Y-%m-%d", 1) ∧
    (∃ c2, build_parameters ⟨"my_fmt", PyObj.dict [("column", "ts")],
          PyObj.none, PyObj.float 1, PyObj.list ["%Y-%m-%d"]⟩
          SampleInputs.sampleEnv SampleInputs.sampleOracle
          SampleInputs.singletonEnumerate
          ⟨[("$parameter.prior", ⟨Option.none, 0, 1⟩)]⟩ =
        Except.ok c2 ∧
      pyDictGet c2.parameter_nodes
          (fully_qualified_parameter_name "my_fmt") =
        some ⟨some "%Y-%m-%d", 1,
          SampleInputs.sampleOracle.nonnullCounts.length⟩ ∧
      ∀ k, k ≠ fully_qualified_parameter_name "my_fmt" →
        pyDictGet c2.parameter_nodes k =
          pyDictGet [("$parameter.prior",
            (⟨Option.none, 0, 1⟩ : ParameterRecord))] k) :=
  ⟨by with_unfolding_all rfl,
   build_parameters_frame_effect
     ⟨"my_fmt", PyObj.dict [("column", "ts")], PyObj.none, PyObj.float 1,
      PyObj.list ["%Y-%m-%d"]⟩ SampleInputs.sampleEnv
     SampleInputs.sampleOracle SampleInputs.singletonEnumerate
     ⟨[("$parameter.prior", ⟨Option.none, 0, 1⟩)]⟩ (some "%Y-%m-%d") 1
     (by with_unfolding_all rfl)⟩

end SimpleDateFormatStringParameterBuilder
